import Mathlib

/-
A shallow embedding in Lean 4 of the plastron admission-control engine
(src/dist/plastron.js).  JavaScript numbers are modelled exactly:
integer-valued quantities (timestamps, counters, points) as Nat/Int and
every quantity produced by a real division (rates, ratios, slowdown
durations) as Rat.  The mutable per-instance state (the slot array, the
ip -> record map and the global counters) is passed explicitly, and the
two sources of impurity, Date.now() and Math.random(), become explicit
parameters: each admission call receives the current timestamp and a
stream of random slot indices.
-/

namespace Plastron

/-- Mirrors the IpData record of src/src/types.ts / the objects built by
addIpToMonitoring in src/dist/plastron.js. -/
structure IpData where
  ip : String
  index : Nat
  lastSeenMs : Nat
  points : Int
  connections : Int
  reqInCurrentMin : Nat
  reqInPrevMin : Nat
  reqInCurrent10Sec : Nat
  reqInPrev10Sec : Nat
deriving Repr, DecidableEq

/-- Mirrors the globalStats object created in createPlastron
(src/dist/plastron.js lines 182-188): it has exactly these five fields. -/
structure GlobalStats where
  reqInCurrentSec : Nat
  reqInPrevSec : Nat
  prevSecStartMs : Nat
  currentSecStartMs : Nat
  negativeReqInCurrentSec : Nat
deriving Repr, DecidableEq

/-- The configuration options relevant to the engine core (nowFn and the
logging options are replaced by explicit parameters). -/
structure PlastronOptions where
  ipMonitorSize : Nat
  maxRequestRatePerSec : Rat
  maxRequestNegativeIPperSec : Nat
  maxSimultanousConnectionsPerIP : Int
  maxSimultanousConnectionsNegativePerIP : Int
  maxReqPerSecPerIP : Rat
  maxReqNegativePerSecPerIP : Rat
  rateLimitMessage : String
  ipSlowDownStartsAt : Int
  ipSlowDownMaxS : Rat
  ipSlowDownMaxPunishmentAt : Int
  excessiveReqPerS : Rat
  excessiveReqPerMin : Rat
  pointsForExcessiveRequest : Int
  pointsFor20x : Int
  pointsFor30x : Int
  pointsFor400 : Int
  pointsFor401 : Int
  pointsFor404 : Int
  pointsFor40x : Int
  pointsFor50x : Int
deriving Repr, DecidableEq

/-- The defaultOptions of src/dist/plastron.js (lines 5-27), completed
with the caller-supplied required rateLimitMessage. -/
def defaultOptions (msg : String) : PlastronOptions where
  ipMonitorSize := 1000
  maxRequestRatePerSec := 0
  maxRequestNegativeIPperSec := 0
  maxSimultanousConnectionsPerIP := 25
  maxSimultanousConnectionsNegativePerIP := 10
  maxReqPerSecPerIP := 30
  maxReqNegativePerSecPerIP := 10
  rateLimitMessage := msg
  ipSlowDownStartsAt := -100000
  ipSlowDownMaxS := 5000
  ipSlowDownMaxPunishmentAt := -500000
  excessiveReqPerS := 50
  excessiveReqPerMin := 200
  pointsForExcessiveRequest := -100
  pointsFor20x := 1
  pointsFor30x := 0
  pointsFor400 := -10000
  pointsFor401 := -10000
  pointsFor404 := -100
  pointsFor40x := -10
  pointsFor50x := -20

/-- Math.ceil(t / p) for natural t and positive p. -/
def ceilDiv (t p : Nat) : Nat := (t + p - 1) / p

/-- boundary(t) for the minute window: Math.ceil(t / 60000). -/
def minuteBoundary (t : Nat) : Nat := ceilDiv t 60000

/-- boundary(t) for the 10-second window: Math.ceil(t / 10000). -/
def tenSecBoundary (t : Nat) : Nat := ceilDiv t 10000

/-- boundary(t) for the 1-second window: Math.ceil(t / 1000). -/
def secondBoundary (t : Nat) : Nat := ceilDiv t 1000

/-- updateTimeWindows (src/dist/plastron.js lines 38-59): rolls the
per-address minute and 10-second counters when the respective ceil
boundary has moved since lastSeenMs. -/
def updateTimeWindows (d : IpData) (nowMs : Nat) : IpData :=
  let currentMin := minuteBoundary nowMs
  let current10Sec := tenSecBoundary nowMs
  let lastMin := minuteBoundary d.lastSeenMs
  let last10Sec := tenSecBoundary d.lastSeenMs
  let d1 :=
    if currentMin ≠ lastMin then
      { d with
        reqInPrevMin := if currentMin = lastMin + 1 then d.reqInCurrentMin else 0
        reqInCurrentMin := 0 }
    else d
  if current10Sec ≠ last10Sec then
    { d1 with
      reqInPrev10Sec := if current10Sec = last10Sec + 1 then d1.reqInCurrent10Sec else 0
      reqInCurrent10Sec := 0 }
  else d1

/-- updateGlobalStats (src/dist/plastron.js lines 60-70).  Note that the
carry of reqInCurrentSec into reqInPrevSec is unconditional once the
second boundary (computed from prevSecStartMs) has moved, and that the
global stats hold no minute window at all. -/
def updateGlobalStats (g : GlobalStats) (nowMs : Nat) : GlobalStats :=
  let currentSec := secondBoundary nowMs
  let prevSec := secondBoundary g.prevSecStartMs
  if currentSec ≠ prevSec then
    { g with
      reqInPrevSec := g.reqInCurrentSec
      reqInCurrentSec := 0
      negativeReqInCurrentSec := 0
      prevSecStartMs := g.currentSecStartMs
      currentSecStartMs := nowMs }
  else g

/-- calculateCurrentReqPerSec (src/dist/plastron.js lines 71-74). -/
def calculateCurrentReqPerSec (g : GlobalStats) (nowMs : Nat) : Rat :=
  let timeSincePrevSec : Rat := max 1 (((nowMs : Rat) - (g.prevSecStartMs : Rat)) / 1000)
  (((g.reqInCurrentSec : Rat)) + (g.reqInPrevSec : Rat)) / timeSincePrevSec

/-- calculate10SecReqPerSec (src/dist/plastron.js lines 75-77). -/
def calculate10SecReqPerSec (d : IpData) : Rat :=
  ((d.reqInCurrent10Sec : Rat) + (d.reqInPrev10Sec : Rat)) / 10

/-- The association map from ip string to its record (the JS Map). -/
abbrev IpMap := List (String × IpData)

/-- Map.get. -/
def mapLookup (m : IpMap) (k : String) : Option IpData :=
  match m with
  | [] => none
  | p :: rest => if p.1 = k then some p.2 else mapLookup rest k

/-- Map.delete (removes the entry with the given key). -/
def mapDelete (m : IpMap) (k : String) : IpMap :=
  m.filter (fun p => p.1 ≠ k)

/-- Map.set for a key (replaces any existing entry for the key). -/
def mapSet (m : IpMap) (k : String) (v : IpData) : IpMap :=
  (k, v) :: mapDelete m k

/-- In-place mutation of the record stored under a key (JS object
mutation through the reference held by the map). -/
def mapUpdate (m : IpMap) (k : String) (f : IpData → IpData) : IpMap :=
  m.map (fun p => if p.1 = k then (p.1, f p.2) else p)

/-- isRecentlyActive (src/dist/plastron.js line 93): seen within the
last 300000 ms (5 minutes). -/
def isRecentlyActive (d : IpData) (nowMs : Nat) : Bool :=
  decide ((nowMs : Int) - (d.lastSeenMs : Int) < 300000)

/-- isInPreferredRange (src/dist/plastron.js line 94): points within the
inclusive band [-50000, 50000]. -/
def isInPreferredRange (d : IpData) : Bool :=
  decide (-50000 ≤ d.points) && decide (d.points ≤ 50000)

/-- The while-loop of findEvictableIndex (src/dist/plastron.js lines
78-102).  fuel = maxAttempts - attempts, so the loop guard
attempts < maxAttempts is fuel > 0; f is the stream of random slot
indices (f n is the n-th draw of Math.floor(Math.random() * size)). -/
def findEvictableGo (slots : List (Option String)) (m : IpMap) (nowMs : Nat)
    (f : Nat → Nat) : Nat → Nat → Nat
  | attempts, 0 => f attempts
  | attempts, fuel + 1 =>
    let randomIndex := f attempts
    match slots.getD randomIndex none with
    | none => randomIndex
    | some ip =>
      match mapLookup m ip with
      | none => randomIndex
      | some data =>
        if isInPreferredRange data && isRecentlyActive data nowMs
            && decide (attempts ≠ 2 - 1) then
          findEvictableGo slots m nowMs f (attempts + 1) fuel
        else randomIndex

/-- findEvictableIndex with maxAttempts = 2. -/
def findEvictableIndex (slots : List (Option String)) (m : IpMap) (nowMs : Nat)
    (f : Nat → Nat) : Nat :=
  findEvictableGo slots m nowMs f 0 2

/-- The mutable state owned by one engine instance. -/
structure PlastronState where
  monitoredIps : List (Option String)
  ipData : IpMap
  globalStats : GlobalStats
deriving Repr, DecidableEq

/-- addIpToMonitoring (src/dist/plastron.js lines 103-125): picks a slot
via the eviction policy, deletes the (truthy) occupant from the map,
and installs a fresh zero-valued record for the new ip. -/
def addIpToMonitoring (ip : String) (s : PlastronState) (nowMs : Nat)
    (f : Nat → Nat) : IpData × PlastronState :=
  let evictIndex := findEvictableIndex s.monitoredIps s.ipData nowMs f
  let ipData1 :=
    match s.monitoredIps.getD evictIndex none with
    | some oldIp => if oldIp = ("") then s.ipData else mapDelete s.ipData oldIp
    | none => s.ipData
  let newIpData : IpData :=
    { ip := ip, index := evictIndex, lastSeenMs := nowMs, points := 0,
      connections := 0, reqInCurrentMin := 0, reqInPrevMin := 0,
      reqInCurrent10Sec := 0, reqInPrev10Sec := 0 }
  (newIpData,
    { s with
      monitoredIps := s.monitoredIps.set evictIndex (some ip)
      ipData := mapSet ipData1 ip newIpData })

/-- calculateSlowdown (src/dist/plastron.js lines 126-134). -/
def calculateSlowdown (points : Int) (o : PlastronOptions) : Rat :=
  if points ≥ o.ipSlowDownStartsAt then 0
  else
    let range : Rat := (o.ipSlowDownStartsAt : Rat) - (o.ipSlowDownMaxPunishmentAt : Rat)
    let position : Rat := max 0 ((o.ipSlowDownStartsAt : Rat) - (points : Rat))
    let ratio : Rat := min 1 (position / range)
    max 100 (ratio * o.ipSlowDownMaxS)

/-- calculateMaxConnections (src/dist/plastron.js lines 135-143). -/
def calculateMaxConnections (points : Int) (o : PlastronOptions) : Int :=
  let baseMax := if points ≥ 0 then o.maxSimultanousConnectionsPerIP
    else o.maxSimultanousConnectionsNegativePerIP
  if points ≥ o.ipSlowDownStartsAt then baseMax
  else
    let range : Rat := (o.ipSlowDownStartsAt : Rat) - (o.ipSlowDownMaxPunishmentAt : Rat)
    let position : Rat := max 0 ((o.ipSlowDownStartsAt : Rat) - (points : Rat))
    let ratio : Rat := min 1 (position / range)
    max 1 ⌊(baseMax : Rat) * (1 - ratio)⌋

/-- calculatePoints (src/dist/plastron.js lines 144-160). -/
def calculatePoints (statusCode : Nat) (o : PlastronOptions) : Int :=
  if 200 ≤ statusCode ∧ statusCode < 300 then o.pointsFor20x
  else if 300 ≤ statusCode ∧ statusCode < 400 then o.pointsFor30x
  else if statusCode = 400 then o.pointsFor400
  else if statusCode = 401 then o.pointsFor401
  else if statusCode = 404 then o.pointsFor404
  else if 400 ≤ statusCode ∧ statusCode < 500 then o.pointsFor40x
  else if 500 ≤ statusCode ∧ statusCode < 600 then o.pointsFor50x
  else 0

/-- checkExcessiveUsage (src/dist/plastron.js lines 161-170). -/
def checkExcessiveUsage (d : IpData) (o : PlastronOptions) : Int :=
  let penalty1 : Int :=
    if calculate10SecReqPerSec d > o.excessiveReqPerS then o.pointsForExcessiveRequest else 0
  let reqPerMin : Rat := ((d.reqInCurrentMin : Rat) + (d.reqInPrevMin : Rat)) / 60
  let penalty2 : Int :=
    if reqPerMin > o.excessiveReqPerMin then o.pointsForExcessiveRequest else 0
  penalty1 + penalty2

/-- The parts of the request object the engine reads.  Each field is
none when the property is undefined; the JS || chain also treats the
empty string as falsy. -/
structure Req where
  ip : Option String
  socketRemoteAddress : Option String
deriving Repr, DecidableEq

/-- The JS || operator specialized to an optional string on the left:
returns the left value when it is truthy (present and nonempty). -/
def jsStringOr (a : Option String) (b : String) : String :=
  match a with
  | some s => if s = ("") then b else s
  | none => b

/-- getClientIp (src/dist/plastron.js lines 33-37). -/
def getClientIp (r : Req) : String :=
  jsStringOr r.ip (jsStringOr r.socketRemoteAddress ("*error*"))

/-- The outcome of one admission call: either a 429 rejection carrying
the JSON error body, or admission with a slowdown delay in ms. -/
inductive Verdict where
  | reject (status : Nat) (errorBody : String)
  | allow (slowdownMs : Rat)
deriving Repr, DecidableEq

/-- The check cascade of the middleware (src/dist/plastron.js lines
201-219), evaluated on the already-updated global stats and address
record: global rate check, global negative-IP check, per-address
10-second rate check, connection check, otherwise admission with the
computed slowdown. -/
def admissionVerdict (o : PlastronOptions) (g : GlobalStats) (entry : IpData)
    (nowMs : Nat) : Verdict :=
  if o.maxRequestRatePerSec > 0 ∧ calculateCurrentReqPerSec g nowMs ≥ o.maxRequestRatePerSec then
    .reject 429 o.rateLimitMessage
  else if (0 < o.maxRequestNegativeIPperSec) ∧ entry.points < 0 ∧
      g.negativeReqInCurrentSec ≥ o.maxRequestNegativeIPperSec then
    .reject 429 o.rateLimitMessage
  else if calculate10SecReqPerSec entry ≥
      (if entry.points ≥ 0 then o.maxReqPerSecPerIP else o.maxReqNegativePerSecPerIP) then
    .reject 429 o.rateLimitMessage
  else if entry.connections ≥ calculateMaxConnections entry.points o then
    .reject 429 o.rateLimitMessage
  else
    .allow (calculateSlowdown entry.points o)

/-- Get-or-create of the address record (src/dist/plastron.js lines
195-197). -/
def resolveEntry (s : PlastronState) (ip : String) (nowMs : Nat)
    (f : Nat → Nat) : IpData × PlastronState :=
  match mapLookup s.ipData ip with
  | some e => (e, s)
  | none => addIpToMonitoring ip s nowMs f

/-- One admission call (the middleware, src/dist/plastron.js lines
189-245): update global windows, get-or-create the record, roll its
windows and stamp lastSeenMs (mutations visible in the map even on
rejection), run the check cascade, and on admission bump the global and
per-address current-window counters and the connection count. -/
def middleware (o : PlastronOptions) (s : PlastronState) (r : Req) (nowMs : Nat)
    (f : Nat → Nat) : Verdict × PlastronState :=
  let ip := getClientIp r
  let g := updateGlobalStats s.globalStats nowMs
  let s1 : PlastronState := { s with globalStats := g }
  let er := resolveEntry s1 ip nowMs f
  let entry2 : IpData := { updateTimeWindows er.1 nowMs with lastSeenMs := nowMs }
  let s3 : PlastronState := { er.2 with ipData := mapUpdate er.2.ipData ip (fun _ => entry2) }
  match admissionVerdict o g entry2 nowMs with
  | .reject c m => (.reject c m, s3)
  | .allow slow =>
    let g2 : GlobalStats :=
      { g with
        reqInCurrentSec := g.reqInCurrentSec + 1
        negativeReqInCurrentSec :=
          g.negativeReqInCurrentSec + (if entry2.points < 0 then 1 else 0) }
    let entry3 : IpData :=
      { entry2 with
        reqInCurrentMin := entry2.reqInCurrentMin + 1
        reqInCurrent10Sec := entry2.reqInCurrent10Sec + 1
        connections := entry2.connections + 1 }
    (.allow slow,
      { s3 with globalStats := g2, ipData := mapUpdate s3.ipData ip (fun _ => entry3) })

/-- The completion hook installed by wrapping res.send (src/dist/
plastron.js lines 228-240): scores the outcome once and releases the
connection slot, clamped at 0. -/
def finishRequest (d : IpData) (statusCode : Nat) (o : PlastronOptions) : IpData :=
  { d with
    points := d.points + calculatePoints statusCode o + checkExcessiveUsage d o
    connections := max 0 (d.connections - 1) }

/-- addPointsToIp (src/dist/plastron.js lines 246-254), string overload:
adjusts the points of an existing record, or reports failure without
creating one. -/
def addPointsToIp (s : PlastronState) (ip : String) (points : Int) :
    Bool × PlastronState :=
  match mapLookup s.ipData ip with
  | some _ =>
    let m2 := mapUpdate s.ipData ip (fun d => { d with points := d.points + points })
    (true, { s with ipData := m2 })
  | none => (false, s)

/-- The state of a freshly created engine (src/dist/plastron.js lines
179-188): empty slot array of size ipMonitorSize, empty map, zeroed
global counters anchored at the construction time. -/
def initState (o : PlastronOptions) (t0 : Nat) : PlastronState where
  monitoredIps := List.replicate o.ipMonitorSize none
  ipData := []
  globalStats :=
    { reqInCurrentSec := 0, reqInPrevSec := 0, prevSecStartMs := t0,
      currentSecStartMs := t0, negativeReqInCurrentSec := 0 }

/-- One admission call's inputs: the request, its arrival time, and the
random index stream used if an eviction is needed. -/
structure Step where
  req : Req
  now : Nat
  probes : Nat → Nat

/-- Runs a sequence of admission calls, threading the state. -/
def runRequests (o : PlastronOptions) (s : PlastronState) : List Step → PlastronState
  | [] => s
  | st :: rest => runRequests o (middleware o s st.req st.now st.probes).2 rest

/-- The occupancy invariant of the reputation table: the map's keys are
pairwise distinct, and every key is a nonempty string occupying some
slot of the slot array. -/
def tableOk (slots : List (Option String)) (m : IpMap) : Prop :=
  (m.map Prod.fst).Nodup ∧ ∀ p ∈ m, some p.1 ∈ slots ∧ p.1 ≠ ("")

/-- The occupancy invariant, read off an engine state. -/
def TableInv (s : PlastronState) : Prop :=
  tableOk s.monitoredIps s.ipData

/-- A concrete record, used as a test input by witness theorems. -/
def testRecord (lastSeen : Nat) (pts conns : Int)
    (curMin prevMin cur10 prev10 : Nat) : IpData :=
  { ip := ("a"), index := 0, lastSeenMs := lastSeen, points := pts,
    connections := conns, reqInCurrentMin := curMin, reqInPrevMin := prevMin,
    reqInCurrent10Sec := cur10, reqInPrev10Sec := prev10 }

/-- Global counters that are all zero with both second anchors at a given
time, used as a test input by witness theorems. -/
def testGlobalStats (t0 : Nat) : GlobalStats :=
  { reqInCurrentSec := 0, reqInPrevSec := 0, prevSecStartMs := t0,
    currentSecStartMs := t0, negativeReqInCurrentSec := 0 }

/-- A concrete one-slot engine state tracking the single address a,
used as a test input by witness theorems. -/
def testStateA : PlastronState :=
  { monitoredIps := [some ("a")],
    ipData := [(("a"), testRecord 0 5 0 0 0 0 0)],
    globalStats := testGlobalStats 0 }

/-- The default configuration with the global per-second cap set to 1
(the configuration of the two-requests-in-one-second scenario). -/
def testOptionsRate1 (msg : String) : PlastronOptions :=
  { defaultOptions msg with maxRequestRatePerSec := 1 }

/-- A request carrying the given framework-provided client ip. -/
def testReq (a : String) : Req := { ip := some a, socketRemoteAddress := none }

/-- Global counters with 3 requests already recorded in the current
second (anchored at 500 ms), used as a test input. -/
def busyStats : GlobalStats :=
  { reqInCurrentSec := 3, reqInPrevSec := 0, prevSecStartMs := 500,
    currentSecStartMs := 500, negativeReqInCurrentSec := 0 }

/-- A one-slot engine state whose global counters already hold 3
requests in the current second, used as a test input. -/
def busyState : PlastronState :=
  { monitoredIps := [none], ipData := [], globalStats := busyStats }

/-- Global counters as reached from a fresh engine anchored at 500 ms
after five admitted requests within the same second, used as the failing
input for the global rollover claim. -/
def gapStats : GlobalStats :=
  { reqInCurrentSec := 5, reqInPrevSec := 0, prevSecStartMs := 500,
    currentSecStartMs := 500, negativeReqInCurrentSec := 2 }

/-- The default configuration with a table capacity of 2, used to drive
the three-addresses-two-slots scenario. -/
def testOptionsCap2 : PlastronOptions :=
  { defaultOptions ("m") with ipMonitorSize := 2 }

/-- Three admission calls from three distinct addresses, used as a test
input for the occupancy bound. -/
def testSteps3 : List Step :=
  [{ req := testReq ("a"), now := 100, probes := fun _ => 0 },
   { req := testReq ("b"), now := 110, probes := fun _ => 1 },
   { req := testReq ("c"), now := 120, probes := fun _ => 0 }]

end Plastron

namespace Plastron

/- ### Helper lemmas -/

theorem mapLookup_mapUpdate_self (m : IpMap) (k : String) (f : IpData → IpData) :
    mapLookup (mapUpdate m k f) k = Option.map f (mapLookup m k) := by
  induction m with
  | nil => rfl
  | cons p rest ih =>
    by_cases h : p.1 = k
    · simp [mapLookup, mapUpdate, h]
    · simp only [mapUpdate, List.map_cons, mapLookup, if_neg h]
      exact ih

theorem findEvictableGo_final (slots : List (Option String)) (m : IpMap)
    (now : Nat) (f : Nat → Nat) : findEvictableGo slots m now f 1 1 = f 1 := by
  unfold findEvictableGo
  dsimp only
  split
  · rfl
  · split
    · rfl
    · simp

theorem getClientIp_unavailable (r : Req)
    (h1 : r.ip = none ∨ r.ip = some (""))
    (h2 : r.socketRemoteAddress = none ∨ r.socketRemoteAddress = some ("")) :
    getClientIp r = ("*error*") := by
  rcases h1 with h1 | h1 <;> rcases h2 with h2 | h2 <;>
    simp [getClientIp, jsStringOr, h1, h2]

/- ### C1 -/

/-- C1: below ipSlowDownStartsAt, with ratio = min(1, (start - points)/(start - max)),
the slowdown is max(100, ratio * ipSlowDownMaxS) and the connection cap is
max(1, floor(negativeBaseCap * (1 - ratio))); at or above the threshold the
slowdown is 0 and the cap is the sign-selected base cap; at or below
ipSlowDownMaxPunishmentAt (given the thresholds are ordered and the max
slowdown is at least the 100 ms floor) the slowdown is exactly ipSlowDownMaxS
and the cap is exactly 1. -/
theorem C1_punishment_curve (o : PlastronOptions) (points : Int)
    (hstart : o.ipSlowDownStartsAt ≤ 0) :
    (points < o.ipSlowDownStartsAt →
      calculateSlowdown points o =
        max 100 (min 1 (((o.ipSlowDownStartsAt : Rat) - (points : Rat)) /
          ((o.ipSlowDownStartsAt : Rat) - (o.ipSlowDownMaxPunishmentAt : Rat))) *
            o.ipSlowDownMaxS) ∧
      calculateMaxConnections points o =
        max 1 ⌊(o.maxSimultanousConnectionsNegativePerIP : Rat) *
          (1 - min 1 (((o.ipSlowDownStartsAt : Rat) - (points : Rat)) /
            ((o.ipSlowDownStartsAt : Rat) - (o.ipSlowDownMaxPunishmentAt : Rat))))⌋) ∧
    (o.ipSlowDownStartsAt ≤ points →
      calculateSlowdown points o = 0 ∧
      calculateMaxConnections points o =
        (if 0 ≤ points then o.maxSimultanousConnectionsPerIP
          else o.maxSimultanousConnectionsNegativePerIP)) ∧
    (points ≤ o.ipSlowDownMaxPunishmentAt →
      o.ipSlowDownMaxPunishmentAt < o.ipSlowDownStartsAt →
      100 ≤ o.ipSlowDownMaxS →
      calculateSlowdown points o = o.ipSlowDownMaxS ∧
      calculateMaxConnections points o = 1) := by
  have hcast : ∀ a b : Int, a < b → (a : Rat) < (b : Rat) := fun a b h => by exact_mod_cast h
  refine ⟨?_, ?_, ?_⟩
  · intro h
    have hnot : ¬ points ≥ o.ipSlowDownStartsAt := not_le.mpr h
    have hpos : (0 : Rat) ≤ (o.ipSlowDownStartsAt : Rat) - (points : Rat) :=
      sub_nonneg.mpr (le_of_lt (hcast _ _ h))
    have hneg : ¬ points ≥ 0 := not_le.mpr (lt_of_lt_of_le h hstart)
    constructor
    · simp only [calculateSlowdown, if_neg hnot, max_eq_right hpos]
    · simp only [calculateMaxConnections, if_neg hnot, if_neg hneg, max_eq_right hpos]
  · intro h
    constructor
    · simp only [calculateSlowdown, if_pos h]
    · simp only [calculateMaxConnections, if_pos h]
  · intro hp hlt h100
    have h : points < o.ipSlowDownStartsAt := lt_of_le_of_lt hp hlt
    have hnot : ¬ points ≥ o.ipSlowDownStartsAt := not_le.mpr h
    have hneg : ¬ points ≥ 0 := not_le.mpr (lt_of_lt_of_le h hstart)
    have hrange : (0 : Rat) < (o.ipSlowDownStartsAt : Rat) - (o.ipSlowDownMaxPunishmentAt : Rat) :=
      sub_pos.mpr (hcast _ _ hlt)
    have hposle : (o.ipSlowDownStartsAt : Rat) - (o.ipSlowDownMaxPunishmentAt : Rat) ≤
        (o.ipSlowDownStartsAt : Rat) - (points : Rat) := by
      have : (points : Rat) ≤ (o.ipSlowDownMaxPunishmentAt : Rat) := by exact_mod_cast hp
      linarith
    have hpos : (0 : Rat) ≤ (o.ipSlowDownStartsAt : Rat) - (points : Rat) :=
      le_trans (le_of_lt hrange) hposle
    have hratio : min 1 (((o.ipSlowDownStartsAt : Rat) - (points : Rat)) /
        ((o.ipSlowDownStartsAt : Rat) - (o.ipSlowDownMaxPunishmentAt : Rat))) = 1 := by
      refine min_eq_left ?_
      rw [le_div_iff₀ hrange]
      linarith
    constructor
    · simp only [calculateSlowdown, if_neg hnot, max_eq_right hpos, hratio, one_mul,
        max_eq_right h100]
    · simp only [calculateMaxConnections, if_neg hnot, if_neg hneg, max_eq_right hpos, hratio]
      norm_num

/-- C1 witness: with the default configuration, a record at the saturation
score -500000 gets delay 5000 ms and connection cap 1. -/
theorem C1_punishment_curve_witness :
    calculateSlowdown (-500000) (defaultOptions ("m")) = 5000 ∧
    calculateMaxConnections (-500000) (defaultOptions ("m")) = 1 := by
  have h := C1_punishment_curve (defaultOptions ("m")) (-500000) (by norm_num [defaultOptions])
  exact h.2.2 (by norm_num [defaultOptions]) (by norm_num [defaultOptions])
    (by norm_num [defaultOptions])

end Plastron

namespace Plastron

/- ### C2 -/

/-- C2: on every per-address window update, for both the minute and the
10-second window with boundary(t) = ceil(t/period): one elapsed period
carries the current counter into the previous one, more than one elapsed
period zeroes the previous counter, in both cases the current counter
resets to 0, and an unchanged boundary leaves both counters untouched. -/
theorem C2_address_window_rollover (d : IpData) (nowMs : Nat) :
    ((minuteBoundary nowMs = minuteBoundary d.lastSeenMs + 1 →
      (updateTimeWindows d nowMs).reqInPrevMin = d.reqInCurrentMin ∧
      (updateTimeWindows d nowMs).reqInCurrentMin = 0) ∧
    (minuteBoundary d.lastSeenMs + 1 < minuteBoundary nowMs →
      (updateTimeWindows d nowMs).reqInPrevMin = 0 ∧
      (updateTimeWindows d nowMs).reqInCurrentMin = 0) ∧
    (minuteBoundary nowMs = minuteBoundary d.lastSeenMs →
      (updateTimeWindows d nowMs).reqInPrevMin = d.reqInPrevMin ∧
      (updateTimeWindows d nowMs).reqInCurrentMin = d.reqInCurrentMin)) ∧
    ((tenSecBoundary nowMs = tenSecBoundary d.lastSeenMs + 1 →
      (updateTimeWindows d nowMs).reqInPrev10Sec = d.reqInCurrent10Sec ∧
      (updateTimeWindows d nowMs).reqInCurrent10Sec = 0) ∧
    (tenSecBoundary d.lastSeenMs + 1 < tenSecBoundary nowMs →
      (updateTimeWindows d nowMs).reqInPrev10Sec = 0 ∧
      (updateTimeWindows d nowMs).reqInCurrent10Sec = 0) ∧
    (tenSecBoundary nowMs = tenSecBoundary d.lastSeenMs →
      (updateTimeWindows d nowMs).reqInPrev10Sec = d.reqInPrev10Sec ∧
      (updateTimeWindows d nowMs).reqInCurrent10Sec = d.reqInCurrent10Sec)) := by
  simp only [updateTimeWindows]
  split_ifs with h1 h2 h3 h4 h5 h6 <;>
    refine ⟨⟨fun hm => ?_, fun hm => ?_, fun hm => ?_⟩,
      ⟨fun ht => ?_, fun ht => ?_, fun ht => ?_⟩⟩ <;>
    simp_all <;> omega

/-- C2 witness: a record last seen at time 0 updated at 60000 (one minute
boundary later, six 10-second boundaries later) carries its minute counter
forward and zeroes the 10-second history; updating at an unchanged
boundary leaves the counters alone. -/
theorem C2_address_window_rollover_witness :
    (updateTimeWindows
      { ip := ("a"), index := 0, lastSeenMs := 0, points := 0, connections := 0,
        reqInCurrentMin := 3, reqInPrevMin := 9, reqInCurrent10Sec := 4,
        reqInPrev10Sec := 7 } 60000).reqInPrevMin = 3 ∧
    (updateTimeWindows
      { ip := ("a"), index := 0, lastSeenMs := 0, points := 0, connections := 0,
        reqInCurrentMin := 3, reqInPrevMin := 9, reqInCurrent10Sec := 4,
        reqInPrev10Sec := 7 } 60000).reqInPrev10Sec = 0 ∧
    (updateTimeWindows
      { ip := ("a"), index := 0, lastSeenMs := 100, points := 0, connections := 0,
        reqInCurrentMin := 3, reqInPrevMin := 9, reqInCurrent10Sec := 4,
        reqInPrev10Sec := 7 } 200).reqInCurrentMin = 3 := by
  refine ⟨?_, ?_, ?_⟩
  · exact ((C2_address_window_rollover _ 60000).1.1 (by decide)).1
  · exact ((C2_address_window_rollover _ 60000).2.2.1 (by decide)).1
  · exact ((C2_address_window_rollover _ 200).1.2.2 (by decide)).2

/- ### C5 -/

/-- C5: calculatePoints classifies the completion status in the fixed
order 2xx, 3xx, exactly 400, exactly 401, exactly 404, other 4xx, 5xx,
else 0, and the completion hook changes the record's points by exactly
calculatePoints(status) + checkExcessiveUsage(record), once. -/
theorem C5_status_scoring (o : PlastronOptions) (code : Nat) (d : IpData) :
    (200 ≤ code ∧ code < 300 → calculatePoints code o = o.pointsFor20x) ∧
    (300 ≤ code ∧ code < 400 → calculatePoints code o = o.pointsFor30x) ∧
    (code = 400 → calculatePoints code o = o.pointsFor400) ∧
    (code = 401 → calculatePoints code o = o.pointsFor401) ∧
    (code = 404 → calculatePoints code o = o.pointsFor404) ∧
    (400 ≤ code ∧ code < 500 ∧ code ≠ 400 ∧ code ≠ 401 ∧ code ≠ 404 →
      calculatePoints code o = o.pointsFor40x) ∧
    (500 ≤ code ∧ code < 600 → calculatePoints code o = o.pointsFor50x) ∧
    (code < 200 ∨ 600 ≤ code → calculatePoints code o = 0) ∧
    (finishRequest d code o).points =
      d.points + calculatePoints code o + checkExcessiveUsage d o := by
  refine ⟨fun h => ?_, fun h => ?_, fun h => ?_, fun h => ?_, fun h => ?_,
    fun h => ?_, fun h => ?_, fun h => ?_, rfl⟩ <;>
  · simp only [calculatePoints]
    split_ifs <;> omega

/-- C5 witness: concrete classifications (404 before the generic 4xx
bucket, 403 falling into it) and a concrete completion delta. -/
theorem C5_status_scoring_witness :
    calculatePoints 404 (defaultOptions ("m")) = -100 ∧
    calculatePoints 403 (defaultOptions ("m")) = -10 ∧
    calculatePoints 204 (defaultOptions ("m")) = 1 ∧
    (finishRequest (testRecord 0 0 1 1 0 1 0) 404 (defaultOptions ("m"))).points = -100 := by
  refine ⟨?_, ?_, ?_, ?_⟩
  · exact (C5_status_scoring (defaultOptions ("m")) 404 (testRecord 0 0 1 1 0 1 0)).2.2.2.2.1 rfl
  · exact (C5_status_scoring (defaultOptions ("m")) 403
      (testRecord 0 0 1 1 0 1 0)).2.2.2.2.2.1 (by decide)
  · exact (C5_status_scoring (defaultOptions ("m")) 204 (testRecord 0 0 1 1 0 1 0)).1 (by decide)
  · have h := (C5_status_scoring (defaultOptions ("m")) 404
      (testRecord 0 0 1 1 0 1 0)).2.2.2.2.2.2.2.2
    rw [h]
    norm_num [testRecord, calculatePoints, checkExcessiveUsage, calculate10SecReqPerSec,
      defaultOptions]

/- ### C8 -/

/-- C8: addPoints on a tracked address adds the delta to its record and
returns true; on an untracked address it returns false, creates nothing,
and leaves the state (hence the tracked count) unchanged. -/
theorem C8_addPoints (s : PlastronState) (ip : String) (delta : Int) :
    (∀ d, mapLookup s.ipData ip = some d →
      (addPointsToIp s ip delta).1 = true ∧
      mapLookup ((addPointsToIp s ip delta).2.ipData) ip =
        some { d with points := d.points + delta }) ∧
    (mapLookup s.ipData ip = none →
      (addPointsToIp s ip delta).1 = false ∧
      (addPointsToIp s ip delta).2 = s ∧
      (addPointsToIp s ip delta).2.ipData.length = s.ipData.length) := by
  constructor
  · intro d hd
    refine ⟨?_, ?_⟩
    · simp only [addPointsToIp, hd]
    · simp only [addPointsToIp, hd]
      rw [mapLookup_mapUpdate_self, hd]
      rfl
  · intro hnone
    refine ⟨?_, ?_, ?_⟩ <;> simp only [addPointsToIp, hnone]

/-- C8 witness: adjusting a tracked address succeeds and adds the delta;
adjusting a never-seen address fails and changes nothing. -/
theorem C8_addPoints_witness :
    (addPointsToIp testStateA ("a") (-7)).1 = true ∧
    mapLookup ((addPointsToIp testStateA ("a") (-7)).2.ipData) ("a") =
      some (testRecord 0 (-2) 0 0 0 0 0) ∧
    (addPointsToIp testStateA ("b") 3).1 = false ∧
    (addPointsToIp testStateA ("b") 3).2 = testStateA := by
  have h1 := (C8_addPoints testStateA ("a") (-7)).1 (testRecord 0 5 0 0 0 0 0) rfl
  have h2 := (C8_addPoints testStateA ("b") 3).2 rfl
  exact ⟨h1.1, h1.2, h2.1, h2.2.1⟩

end Plastron

namespace Plastron

/- ### C4 -/

theorem findEvictableIndex_eq (slots : List (Option String)) (m : IpMap)
    (now : Nat) (f : Nat → Nat) :
    findEvictableIndex slots m now f =
      match slots.getD (f 0) none with
      | none => f 0
      | some ip =>
        match mapLookup m ip with
        | none => f 0
        | some d => if isInPreferredRange d && isRecentlyActive d now then f 1 else f 0 := by
  unfold findEvictableIndex findEvictableGo
  dsimp only
  cases h0 : slots.getD (f 0) none with
  | none => rfl
  | some ip =>
    dsimp only
    cases h1 : mapLookup m ip with
    | none => rfl
    | some d =>
      dsimp only
      by_cases h : (isInPreferredRange d && isRecentlyActive d now) = true
      · simp [h, findEvictableGo_final]
      · simp [h]

/-- C4: eviction uses at most two random probes; an empty probed slot or
one whose occupant is missing from the map is used immediately; an
occupant outside the inclusive band [-50000, 50000] or not seen within
the last 300000 ms is evicted on the first probe; a protected occupant
on the non-final first probe is skipped in favour of the second random
probe, which is then used unconditionally. -/
theorem C4_eviction_policy (slots : List (Option String)) (m : IpMap)
    (now : Nat) (f : Nat → Nat) :
    (findEvictableIndex slots m now f = f 0 ∨ findEvictableIndex slots m now f = f 1) ∧
    (slots.getD (f 0) none = none → findEvictableIndex slots m now f = f 0) ∧
    (∀ ip, slots.getD (f 0) none = some ip → mapLookup m ip = none →
      findEvictableIndex slots m now f = f 0) ∧
    (∀ ip d, slots.getD (f 0) none = some ip → mapLookup m ip = some d →
      ¬(isInPreferredRange d = true ∧ isRecentlyActive d now = true) →
      findEvictableIndex slots m now f = f 0) ∧
    (∀ ip d, slots.getD (f 0) none = some ip → mapLookup m ip = some d →
      isInPreferredRange d = true → isRecentlyActive d now = true →
      findEvictableIndex slots m now f = f 1) ∧
    (∀ d : IpData, isInPreferredRange d = true ↔ (-50000 ≤ d.points ∧ d.points ≤ 50000)) ∧
    (∀ d : IpData, isRecentlyActive d now = true ↔ (now : Int) - (d.lastSeenMs : Int) < 300000) := by
  refine ⟨?_, ?_, ?_, ?_, ?_, ?_, ?_⟩
  · rcases h0 : slots.getD (f 0) none with _ | ip
    · exact Or.inl (by rw [findEvictableIndex_eq]; simp only [h0])
    · rcases h1 : mapLookup m ip with _ | d
      · exact Or.inl (by rw [findEvictableIndex_eq]; simp only [h0, h1])
      · by_cases h : (isInPreferredRange d && isRecentlyActive d now) = true
        · exact Or.inr (by rw [findEvictableIndex_eq]; simp only [h0, h1]; simp [h])
        · exact Or.inl (by rw [findEvictableIndex_eq]; simp only [h0, h1]; simp [h])
  · intro h0
    rw [findEvictableIndex_eq]
    simp only [h0]
  · intro ip h0 h1
    rw [findEvictableIndex_eq]
    simp only [h0, h1]
  · intro ip d h0 h1 h
    have hb : (isInPreferredRange d && isRecentlyActive d now) = false := by
      cases hp : isInPreferredRange d <;> cases hr : isRecentlyActive d now <;> simp_all
    rw [findEvictableIndex_eq]
    simp only [h0, h1]
    simp [hb]
  · intro ip d h0 h1 hc hr
    rw [findEvictableIndex_eq]
    simp only [h0, h1]
    simp [hc, hr]
  · intro d
    simp [isInPreferredRange]
  · intro d
    simp [isRecentlyActive]

/-- C4 witness: a protected occupant (points 0, seen 10 ms ago) survives
the first probe and the second probe is evicted; an occupant with an
extreme score is evicted on the first probe; an empty probed slot is
used immediately. -/
theorem C4_eviction_policy_witness :
    findEvictableIndex [some ("a"), none] [(("a"), testRecord 90 0 0 0 0 0 0)] 100
      (fun n => n) = 1 ∧
    findEvictableIndex [some ("a"), none] [(("a"), testRecord 90 60000 0 0 0 0 0)] 100
      (fun n => n) = 0 ∧
    findEvictableIndex [none] [] 100 (fun _ => 0) = 0 := by
  refine ⟨?_, ?_, ?_⟩
  · exact (C4_eviction_policy [some ("a"), none] [(("a"), testRecord 90 0 0 0 0 0 0)] 100
      (fun n => n)).2.2.2.2.1 ("a") (testRecord 90 0 0 0 0 0 0) rfl rfl
      (by decide) (by decide)
  · exact (C4_eviction_policy [some ("a"), none] [(("a"), testRecord 90 60000 0 0 0 0 0)] 100
      (fun n => n)).2.2.2.1 ("a") (testRecord 90 60000 0 0 0 0 0) rfl rfl (by decide)
  · exact (C4_eviction_policy [none] [] 100 (fun _ => 0)).2.1 rfl

/- ### C3 -/

/-- C3: the code does not apply the §4.1 rollover rule to the global
counters.  On the failing input gapStats (reachable from a fresh engine
anchored at 500 ms after five admitted requests in that second) observed
again at 10000 ms, more than one second boundary has elapsed, yet
reqInPrevSec receives the old reqInCurrentSec value 5 instead of
resetting to 0; and the global stats carry no minute window at all (the
GlobalStats record of the dist build has only the five per-second
fields, although src/src/types.ts declares minute fields for it). -/
theorem C3_global_window_rule_violated :
    secondBoundary gapStats.prevSecStartMs + 1 < secondBoundary 10000 ∧
    (updateGlobalStats gapStats 10000).reqInPrevSec = 5 ∧
    (updateGlobalStats gapStats 10000).reqInPrevSec ≠ 0 := by
  decide

/- ### C7 -/

/-- C7: on a rejected request (here the global rate check fires) the
middleware answers status 429 with the configured message as the error
body, but it increments no rejected-this-minute counter: the global
stats after the rejection are exactly the stats before it, and the
GlobalStats record of the dist build has no rejection counter field at
all (src/src/types.ts declares rateLimited429InCurrentMin, which the
implementation never creates or touches). -/
theorem C7_rejection_message_no_counter :
    (middleware (testOptionsRate1 ("service busy")) busyState (testReq ("a")) 600
      (fun _ => 0)).1 = Verdict.reject 429 ("service busy") ∧
    (middleware (testOptionsRate1 ("service busy")) busyState (testReq ("a")) 600
      (fun _ => 0)).2.globalStats = busyStats := by
  norm_num [middleware, resolveEntry, addIpToMonitoring, findEvictableIndex, findEvictableGo,
    mapLookup, mapSet, mapDelete, mapUpdate, updateGlobalStats, updateTimeWindows,
    admissionVerdict, calculateCurrentReqPerSec, calculate10SecReqPerSec, calculateSlowdown,
    calculateMaxConnections, getClientIp, jsStringOr, ceilDiv, minuteBoundary, tenSecBoundary,
    secondBoundary, isInPreferredRange, isRecentlyActive, checkExcessiveUsage, defaultOptions,
    testOptionsRate1, testReq, busyState, busyStats]

/- ### C10 -/

/-- C10: when neither the framework-provided client ip nor the socket
remote address is available (absent or empty), the request is keyed
under the literal address *error*, and any two such requests are
processed identically against the same state: they share one reputation
record. -/
theorem C10_unattributable_share_record (r1 r2 : Req)
    (h1 : r1.ip = none ∨ r1.ip = some (""))
    (h2 : r1.socketRemoteAddress = none ∨ r1.socketRemoteAddress = some (""))
    (h3 : r2.ip = none ∨ r2.ip = some (""))
    (h4 : r2.socketRemoteAddress = none ∨ r2.socketRemoteAddress = some ("")) :
    getClientIp r1 = ("*error*") ∧ getClientIp r2 = ("*error*") ∧
    ∀ (o : PlastronOptions) (s : PlastronState) (nowMs : Nat) (f : Nat → Nat),
      middleware o s r1 nowMs f = middleware o s r2 nowMs f := by
  have e1 := getClientIp_unavailable r1 h1 h2
  have e2 := getClientIp_unavailable r2 h3 h4
  refine ⟨e1, e2, fun o s nowMs f => ?_⟩
  unfold middleware
  rw [e1, e2]

/-- C10 witness: a request with no ip and an empty socket address and a
request with an empty ip and no socket address are both keyed *error*
and give identical verdicts and states. -/
theorem C10_unattributable_share_record_witness :
    getClientIp { ip := none, socketRemoteAddress := some ("") } = ("*error*") ∧
    middleware (defaultOptions ("m")) (initState (defaultOptions ("m")) 0)
      { ip := none, socketRemoteAddress := some ("") } 5 (fun _ => 0) =
    middleware (defaultOptions ("m")) (initState (defaultOptions ("m")) 0)
      { ip := some (""), socketRemoteAddress := none } 5 (fun _ => 0) := by
  have h := C10_unattributable_share_record
    { ip := none, socketRemoteAddress := some ("") }
    { ip := some (""), socketRemoteAddress := none }
    (Or.inl rfl) (Or.inr rfl) (Or.inr rfl) (Or.inl rfl)
  exact ⟨h.1, h.2.2 _ _ _ _⟩

end Plastron

namespace Plastron

/- ### C6 infrastructure -/

theorem mapUpdate_keys (m : IpMap) (k : String) (g : IpData → IpData) :
    (mapUpdate m k g).map Prod.fst = m.map Prod.fst := by
  unfold mapUpdate
  rw [List.map_map]
  apply List.map_congr_left
  intro p _
  by_cases h : p.1 = k <;> simp [h]

theorem mem_mapUpdate (m : IpMap) (k : String) (g : IpData → IpData)
    (p : String × IpData) (hp : p ∈ mapUpdate m k g) : ∃ q ∈ m, p.1 = q.1 := by
  unfold mapUpdate at hp
  obtain ⟨q, hq, hgq⟩ := List.mem_map.mp hp
  refine ⟨q, hq, ?_⟩
  rw [← hgq]
  by_cases h : q.1 = k <;> simp [h]

theorem mem_mapDelete (m : IpMap) (k : String) (p : String × IpData)
    (hp : p ∈ mapDelete m k) : p ∈ m ∧ p.1 ≠ k := by
  unfold mapDelete at hp
  have := List.mem_filter.mp hp
  exact ⟨this.1, by simpa using this.2⟩

theorem nodup_keys_mapDelete (m : IpMap) (k : String)
    (h : (m.map Prod.fst).Nodup) : ((mapDelete m k).map Prod.fst).Nodup :=
  ((List.filter_sublist m).map Prod.fst).nodup h

theorem not_mem_keys_mapDelete (m : IpMap) (k : String) :
    k ∉ (mapDelete m k).map Prod.fst := by
  intro h
  obtain ⟨p, hp, hpk⟩ := List.mem_map.mp h
  exact (mem_mapDelete m k p hp).2 hpk

theorem findEvictableGo_range (slots : List (Option String)) (m : IpMap)
    (now : Nat) (f : Nat → Nat) :
    ∀ (fuel a : Nat), ∃ j, findEvictableGo slots m now f a fuel = f j := by
  intro fuel
  induction fuel with
  | zero => exact fun a => ⟨a, rfl⟩
  | succ n ih =>
    intro a
    unfold findEvictableGo
    dsimp only
    cases slots.getD (f a) none with
    | none => exact ⟨a, rfl⟩
    | some ip =>
      dsimp only
      cases mapLookup m ip with
      | none => exact ⟨a, rfl⟩
      | some d =>
        dsimp only
        by_cases h : (isInPreferredRange d && isRecentlyActive d now
            && decide (a ≠ 2 - 1)) = true
        · rw [if_pos h]; exact ih (a + 1)
        · rw [if_neg h]; exact ⟨a, rfl⟩

theorem findEvictableIndex_lt (slots : List (Option String)) (m : IpMap)
    (now : Nat) (f : Nat → Nat) (N : Nat) (hf : ∀ n, f n < N) :
    findEvictableIndex slots m now f < N := by
  obtain ⟨j, hj⟩ := findEvictableGo_range slots m now f 2 0
  unfold findEvictableIndex
  rw [hj]
  exact hf j

theorem getClientIp_ne_empty (r : Req) : getClientIp r ≠ ("") := by
  unfold getClientIp jsStringOr
  cases r.ip with
  | none =>
    cases r.socketRemoteAddress with
    | none => simp
    | some t => by_cases h : t = ("") <;> simp [h]
  | some s =>
    by_cases h : s = ("") <;> simp [h] <;>
    · cases r.socketRemoteAddress with
      | none => simp
      | some t => by_cases h2 : t = ("") <;> simp [h2]


theorem tableOk_mapUpdate (slots : List (Option String)) (m : IpMap)
    (k : String) (g : IpData → IpData) (h : tableOk slots m) :
    tableOk slots (mapUpdate m k g) := by
  obtain ⟨hnd, hmem⟩ := h
  constructor
  · rw [mapUpdate_keys]
    exact hnd
  · intro p hp
    obtain ⟨q, hq, hpq⟩ := mem_mapUpdate m k g p hp
    rw [hpq]
    exact hmem q hq

theorem tableOk_insert (slots : List (Option String)) (m : IpMap) (ip : String)
    (i : Nat) (v : IpData) (hip : ip ≠ ("")) (hi : i < slots.length)
    (h : tableOk slots m) :
    tableOk (slots.set i (some ip))
      (mapSet
        (match slots.getD i none with
          | some oldIp => if oldIp = ("") then m else mapDelete m oldIp
          | none => m) ip v) := by
  obtain ⟨hnd, hmem⟩ := h
  have hslotI : slots.getD i none = slots.get ⟨i, hi⟩ := by
    rw [List.getD_eq_getElem?_getD, List.getElem?_eq_getElem hi]
    rfl
  have hm1 : ∀ (m1 : IpMap), (m1.map Prod.fst).Nodup →
      (∀ p ∈ m1, p ∈ m) →
      (∀ p ∈ m1, p.1 ≠ ip → slots.get ⟨i, hi⟩ ≠ some p.1) →
      tableOk (slots.set i (some ip)) (mapSet m1 ip v) := by
    intro m1 hm1nd hm1sub hm1slot
    constructor
    · show (((ip, v) :: mapDelete m1 ip).map Prod.fst).Nodup
      rw [List.map_cons, List.nodup_cons]
      exact ⟨not_mem_keys_mapDelete m1 ip, nodup_keys_mapDelete m1 ip hm1nd⟩
    · intro p hp
      rcases List.mem_cons.mp hp with rfl | hp'
      · refine ⟨?_, hip⟩
        exact List.mem_set slots i (by simpa using hi) (some ip)
      · obtain ⟨hpm1, hpne⟩ := mem_mapDelete m1 ip p hp'
        obtain ⟨hslotmem, hpne2⟩ := hmem p (hm1sub p hpm1)
        refine ⟨?_, hpne2⟩
        obtain ⟨j, hj, hjeq⟩ := List.mem_iff_getElem.mp hslotmem
        have hji : i ≠ j := by
          intro hij
          subst hij
          exact hm1slot p hpm1 hpne (by rw [List.get_eq_getElem]; exact hjeq)
        rw [List.mem_iff_getElem]
        refine ⟨j, by simpa using hj, ?_⟩
        rw [List.getElem_set_ne hji]
        exact hjeq
  cases hslot : slots.getD i none with
  | none =>
    have hnone : slots.get ⟨i, hi⟩ = none := by rw [← hslotI, hslot]
    have hres := hm1 m hnd (fun p hp => hp)
      (fun p _ _ => by rw [hnone]; exact fun h => Option.noConfusion h)
    simp only [hslot]
    exact hres
  | some oldIp =>
    have hsome : slots.get ⟨i, hi⟩ = some oldIp := by rw [← hslotI, hslot]
    by_cases hold : oldIp = ("")
    · have hno : ∀ p ∈ m, p.1 ≠ ip → slots.get ⟨i, hi⟩ ≠ some p.1 := by
        intro p hp _ hcontra
        rw [hsome] at hcontra
        have heq : oldIp = p.1 := Option.some.inj hcontra
        exact (hmem p hp).2 (by rw [← heq, hold])
      have hres := hm1 m hnd (fun p hp => hp) hno
      simp only [hslot]
      rw [if_pos hold]
      exact hres
    · have hno : ∀ p ∈ mapDelete m oldIp, p.1 ≠ ip → slots.get ⟨i, hi⟩ ≠ some p.1 := by
        intro p hp _ hcontra
        rw [hsome] at hcontra
        exact (mem_mapDelete m oldIp p hp).2 (Option.some.inj hcontra).symm
      have hres := hm1 (mapDelete m oldIp)
        (nodup_keys_mapDelete m oldIp hnd)
        (fun p hp => (mem_mapDelete m oldIp p hp).1) hno
      simp only [hslot]
      rw [if_neg hold]
      exact hres

theorem addIp_ok (ip : String) (s : PlastronState) (now : Nat) (f : Nat → Nat)
    (hip : ip ≠ ("")) (hf : ∀ n, f n < s.monitoredIps.length)
    (h : tableOk s.monitoredIps s.ipData) :
    tableOk (addIpToMonitoring ip s now f).2.monitoredIps
      (addIpToMonitoring ip s now f).2.ipData ∧
    (addIpToMonitoring ip s now f).2.monitoredIps.length = s.monitoredIps.length := by
  have hi := findEvictableIndex_lt s.monitoredIps s.ipData now f _ hf
  unfold addIpToMonitoring
  dsimp only
  exact ⟨tableOk_insert s.monitoredIps s.ipData ip _ _ hip hi h,
    List.length_set s.monitoredIps _ _⟩

theorem resolveEntry_ok (s : PlastronState) (ip : String) (now : Nat)
    (f : Nat → Nat) (hip : ip ≠ ("")) (hf : ∀ n, f n < s.monitoredIps.length)
    (h : tableOk s.monitoredIps s.ipData) :
    tableOk (resolveEntry s ip now f).2.monitoredIps
      (resolveEntry s ip now f).2.ipData ∧
    (resolveEntry s ip now f).2.monitoredIps.length = s.monitoredIps.length := by
  unfold resolveEntry
  cases hlook : mapLookup s.ipData ip with
  | some e =>
    dsimp only
    exact ⟨h, rfl⟩
  | none =>
    dsimp only
    exact addIp_ok ip s now f hip hf h

theorem middleware_ok (o : PlastronOptions) (s : PlastronState) (r : Req)
    (now : Nat) (f : Nat → Nat) (hf : ∀ n, f n < s.monitoredIps.length)
    (h : tableOk s.monitoredIps s.ipData) :
    tableOk (middleware o s r now f).2.monitoredIps
      (middleware o s r now f).2.ipData ∧
    (middleware o s r now f).2.monitoredIps.length = s.monitoredIps.length := by
  have hip := getClientIp_ne_empty r
  have h1 := resolveEntry_ok
    { s with globalStats := updateGlobalStats s.globalStats now }
    (getClientIp r) now f hip hf h
  unfold middleware
  dsimp only
  split
  · dsimp only
    exact ⟨tableOk_mapUpdate _ _ _ _ h1.1, h1.2⟩
  · dsimp only
    exact ⟨tableOk_mapUpdate _ _ _ _ (tableOk_mapUpdate _ _ _ _ h1.1), h1.2⟩

theorem tableOk_card (slots : List (Option String)) (m : IpMap)
    (h : tableOk slots m) : m.length ≤ slots.length := by
  obtain ⟨hnd, hmem⟩ := h
  have h2 : ((m.map Prod.fst).map some).Nodup :=
    hnd.map (Option.some_injective _)
  have hsub : (m.map Prod.fst).map some ⊆ slots := by
    intro x hx
    obtain ⟨k, hk, rfl⟩ := List.mem_map.mp hx
    obtain ⟨p, hp, rfl⟩ := List.mem_map.mp hk
    exact (hmem p hp).1
  calc m.length = ((m.map Prod.fst).map some).length := by simp
    _ = ((m.map Prod.fst).map some).toFinset.card :=
        (List.toFinset_card_of_nodup h2).symm
    _ ≤ slots.toFinset.card :=
        Finset.card_le_card
          (fun x hx => List.mem_toFinset.mpr (hsub (List.mem_toFinset.mp hx)))
    _ ≤ slots.length := List.toFinset_card_le slots

theorem runRequests_inv (o : PlastronOptions) (steps : List Step) :
    ∀ (s : PlastronState), tableOk s.monitoredIps s.ipData →
    s.monitoredIps.length = o.ipMonitorSize →
    (∀ st ∈ steps, ∀ n, st.probes n < o.ipMonitorSize) →
    tableOk (runRequests o s steps).monitoredIps (runRequests o s steps).ipData ∧
    (runRequests o s steps).monitoredIps.length = o.ipMonitorSize := by
  induction steps with
  | nil => exact fun s h1 h2 _ => ⟨h1, h2⟩
  | cons st rest ih =>
    intro s h1 h2 h3
    have hf : ∀ n, st.probes n < s.monitoredIps.length := by
      rw [h2]
      exact fun n => h3 st (List.mem_cons_self st rest) n
    have hp := middleware_ok o s st.req st.now st.probes hf h1
    exact ih _ hp.1 (by rw [hp.2, h2])
      (fun x hx n => h3 x (List.mem_cons_of_mem st hx) n)

/- ### C6 -/

/-- C6: starting from a fresh engine, after any sequence of admission
calls (whose random slot draws are in range, as Math.floor(random*size)
always is for a positive size) the number of tracked records never
exceeds the configured ipMonitorSize: each insertion evicts one slot and
first deletes that slot's occupant from the map, so occupancy stays
bounded by the fixed slot array. -/
theorem C6_table_occupancy_bounded (o : PlastronOptions) (t0 : Nat) (steps : List Step)
    (hf : ∀ st ∈ steps, ∀ n, st.probes n < o.ipMonitorSize) :
    (runRequests o (initState o t0) steps).ipData.length ≤ o.ipMonitorSize := by
  have hinit : tableOk (initState o t0).monitoredIps (initState o t0).ipData := by
    constructor
    · simp [initState]
    · intro p hp
      simp [initState] at hp
  have hlen : (initState o t0).monitoredIps.length = o.ipMonitorSize := by
    simp [initState]
  have h := runRequests_inv o steps (initState o t0) hinit hlen hf
  calc (runRequests o (initState o t0) steps).ipData.length
      ≤ (runRequests o (initState o t0) steps).monitoredIps.length :=
        tableOk_card _ _ h.1
    _ = o.ipMonitorSize := h.2

/-- C6 witness: with capacity 2, three distinct addresses leave at most
2 tracked records. -/
theorem C6_table_occupancy_bounded_witness :
    (runRequests testOptionsCap2 (initState testOptionsCap2 50) testSteps3).ipData.length ≤ 2 := by
  have hpr : ∀ st ∈ testSteps3, ∀ n, st.probes n < testOptionsCap2.ipMonitorSize := by
    intro st hst n
    simp only [testSteps3, List.mem_cons, List.not_mem_nil, or_false] at hst
    rcases hst with rfl | rfl | rfl <;> norm_num [testOptionsCap2, defaultOptions]
  exact C6_table_occupancy_bounded testOptionsCap2 50 testSteps3 hpr

end Plastron

namespace Plastron

/- ### C9 infrastructure -/

theorem getD_replicate_none (n i : Nat) :
    (List.replicate n (none : Option String)).getD i none = none := by
  rw [List.getD_eq_getElem?_getD, List.getElem?_replicate]
  by_cases h : i < n <;> simp [h]

theorem middleware_first_fresh (msg a : String) (now0 t1 : Nat) (f : Nat → Nat)
    (ha : a ≠ ("")) :
    (middleware (testOptionsRate1 msg) (initState (testOptionsRate1 msg) now0)
        (testReq a) t1 f).1 = Verdict.allow 0 ∧
    (middleware (testOptionsRate1 msg) (initState (testOptionsRate1 msg) now0)
        (testReq a) t1 f).2.globalStats =
      { reqInCurrentSec := 1, reqInPrevSec := 0, prevSecStartMs := now0,
        currentSecStartMs := if secondBoundary t1 = secondBoundary now0 then now0 else t1,
        negativeReqInCurrentSec := 0 } := by
  by_cases hb : secondBoundary t1 = secondBoundary now0 <;>
    norm_num [middleware, resolveEntry, addIpToMonitoring, findEvictableIndex,
      findEvictableGo, mapLookup, mapSet, mapDelete, mapUpdate, updateGlobalStats,
      updateTimeWindows, admissionVerdict, calculateCurrentReqPerSec,
      calculate10SecReqPerSec, calculateSlowdown, calculateMaxConnections, getClientIp,
      jsStringOr, initState, testOptionsRate1, testReq, defaultOptions, ha, hb,
      getD_replicate_none]

theorem admissionVerdict_global (o : PlastronOptions) (g : GlobalStats) (e : IpData)
    (t : Nat) (h : o.maxRequestRatePerSec > 0 ∧
      calculateCurrentReqPerSec g t ≥ o.maxRequestRatePerSec) :
    admissionVerdict o g e t = Verdict.reject 429 o.rateLimitMessage := by
  unfold admissionVerdict
  rw [if_pos h]

theorem middleware_reject_global (o : PlastronOptions) (s : PlastronState) (r : Req)
    (t : Nat) (f : Nat → Nat) (hcap : o.maxRequestRatePerSec > 0)
    (hrate : calculateCurrentReqPerSec (updateGlobalStats s.globalStats t) t ≥
      o.maxRequestRatePerSec) :
    (middleware o s r t f).1 = Verdict.reject 429 o.rateLimitMessage := by
  unfold middleware
  dsimp only
  rw [admissionVerdict_global o _ _ t ⟨hcap, hrate⟩]

theorem secondBoundary_gap (x y : Nat) (hxy : x ≤ y)
    (h : secondBoundary x = secondBoundary y) : y - x < 1000 := by
  unfold secondBoundary ceilDiv at h
  omega

theorem rate_ge_one (g : GlobalStats) (t : Nat)
    (hsum : g.reqInCurrentSec + g.reqInPrevSec = 1)
    (hp : g.prevSecStartMs ≤ t) (hgap : t - g.prevSecStartMs < 1000) :
    calculateCurrentReqPerSec g t ≥ 1 := by
  unfold calculateCurrentReqPerSec
  dsimp only
  have hcast : ((t : Rat) - (g.prevSecStartMs : Rat)) =
      ((t - g.prevSecStartMs : Nat) : Rat) := by
    rw [Nat.cast_sub hp]
  have hle : ((t : Rat) - (g.prevSecStartMs : Rat)) / 1000 ≤ 1 := by
    rw [hcast, div_le_one (by norm_num)]
    exact_mod_cast le_of_lt hgap
  rw [max_eq_left hle]
  have hone : ((g.reqInCurrentSec : Rat) + (g.reqInPrevSec : Rat)) = 1 := by
    exact_mod_cast hsum
  rw [hone]
  norm_num

theorem middleware_second_reject (msg : String) (s : PlastronState) (r : Req)
    (p c t2 : Nat) (f : Nat → Nat)
    (hg : s.globalStats = { reqInCurrentSec := 1, reqInPrevSec := 0,
                            prevSecStartMs := p, currentSecStartMs := c,
                            negativeReqInCurrentSec := 0 })
    (hpc : p ≤ c) (hct : c ≤ t2)
    (hcase : secondBoundary t2 = secondBoundary p ∨
      secondBoundary t2 = secondBoundary c) :
    (middleware (testOptionsRate1 msg) s r t2 f).1 = Verdict.reject 429 msg := by
  have hpt : p ≤ t2 := le_trans hpc hct
  apply middleware_reject_global
  · norm_num [testOptionsRate1, defaultOptions]
  · rw [hg]
    show calculateCurrentReqPerSec _ t2 ≥ 1
    by_cases hroll : secondBoundary t2 = secondBoundary p
    · have hupd : updateGlobalStats
          { reqInCurrentSec := 1, reqInPrevSec := 0, prevSecStartMs := p,
            currentSecStartMs := c, negativeReqInCurrentSec := 0 } t2 =
          { reqInCurrentSec := 1, reqInPrevSec := 0, prevSecStartMs := p,
            currentSecStartMs := c, negativeReqInCurrentSec := 0 } := by
        simp [updateGlobalStats, hroll]
      rw [hupd]
      exact rate_ge_one _ t2 (by norm_num) hpt (secondBoundary_gap p t2 hpt hroll.symm)
    · have hc2 : secondBoundary t2 = secondBoundary c := hcase.resolve_left hroll
      have hupd : updateGlobalStats
          { reqInCurrentSec := 1, reqInPrevSec := 0, prevSecStartMs := p,
            currentSecStartMs := c, negativeReqInCurrentSec := 0 } t2 =
          { reqInCurrentSec := 0, reqInPrevSec := 1, prevSecStartMs := c,
            currentSecStartMs := t2, negativeReqInCurrentSec := 0 } := by
        simp [updateGlobalStats, hroll]
      rw [hupd]
      exact rate_ge_one _ t2 (by norm_num) hct (secondBoundary_gap c t2 hct hc2.symm)

/- ### C9 -/

/-- C9: with the global per-second cap configured to 1, for two requests
from distinct available addresses arriving (in order) in the same ceil
second on a fresh engine, the first is admitted (with no slowdown, as a
fresh record has score 0) and the second is rejected with status 429 and
exactly the configured message. -/
theorem C9_global_cap_one_two_requests (msg a1 a2 : String) (now0 t1 t2 : Nat)
    (f1 f2 : Nat → Nat)
    (ha1 : a1 ≠ ("")) (ha2 : a2 ≠ ("")) (hdist : a1 ≠ a2)
    (h01 : now0 ≤ t1) (h12 : t1 ≤ t2)
    (hsame : secondBoundary t1 = secondBoundary t2) :
    (middleware (testOptionsRate1 msg) (initState (testOptionsRate1 msg) now0)
      (testReq a1) t1 f1).1 = Verdict.allow 0 ∧
    (middleware (testOptionsRate1 msg)
      (middleware (testOptionsRate1 msg) (initState (testOptionsRate1 msg) now0)
        (testReq a1) t1 f1).2
      (testReq a2) t2 f2).1 = Verdict.reject 429 msg := by
  have hstep1 := middleware_first_fresh msg a1 now0 t1 f1 ha1
  refine ⟨hstep1.1, ?_⟩
  refine middleware_second_reject msg _ (testReq a2) now0
    (if secondBoundary t1 = secondBoundary now0 then now0 else t1) t2 f2
    hstep1.2 ?_ ?_ ?_
  · by_cases hb : secondBoundary t1 = secondBoundary now0 <;> simp [hb, h01]
  · by_cases hb : secondBoundary t1 = secondBoundary now0 <;>
      simp [hb, le_trans h01 h12, h12]
  · by_cases hb : secondBoundary t1 = secondBoundary now0
    · left
      exact hsame.symm.trans hb
    · right
      rw [if_neg hb]
      exact hsame.symm

/-- C9 witness: fresh engine at 500 ms, addresses a and b at 600 ms and
700 ms: a is admitted, b is rejected with the configured message. -/
theorem C9_global_cap_one_two_requests_witness :
    (middleware (testOptionsRate1 ("wait")) (initState (testOptionsRate1 ("wait")) 500)
      (testReq ("a")) 600 (fun _ => 0)).1 = Verdict.allow 0 ∧
    (middleware (testOptionsRate1 ("wait"))
      (middleware (testOptionsRate1 ("wait")) (initState (testOptionsRate1 ("wait")) 500)
        (testReq ("a")) 600 (fun _ => 0)).2
      (testReq ("b")) 700 (fun _ => 0)).1 = Verdict.reject 429 ("wait") := by
  exact C9_global_cap_one_two_requests ("wait") ("a") ("b") 500 600 700
    (fun _ => 0) (fun _ => 0) (by decide) (by decide) (by decide)
    (by norm_num) (by norm_num) (by decide)

end Plastron
